import Mathlib

/-!
Verification of the map-tool interaction lifecycle of the Giswater QGIS
plugin, as implemented by the toolbar buttons `GwFlowExitButton`
(src/core/toolbars/om/btn_flow_exit.py) and `GwFlowTraceButton`
(src/core/toolbars/om/btn_flow_trace.py).

The Python classes are shallowly embedded as pure step functions over an
explicit `ToolState`.  External inputs (the snap query result, the layer
lookup, the remote call result) are passed in as event data; externally
visible actions (marker updates, remote calls, canvas refresh, tool
switch, messages) are recorded in an effect trace.  Exceptions that the
Python code would raise (attribute access on a missing `snapped_feat`,
attribute lookup of a missing field) are modelled with `Except`.
-/

namespace Giswater

/-- A map layer, identified by its table name. -/
abbrev Layer := String

/-- Buttons of a mouse event (`Qt.LeftButton` etc.). -/
inductive MouseButton where
  | left
  | right
  | middle
deriving DecidableEq, Repr

/-- A vector feature with its attribute map, as captured from a snap
result (`QgsFeature`). -/
structure QgsFeature where
  attrs : List (String × String)
deriving DecidableEq, Repr

/-- `QgsFeature.attribute(name)` in PyQGIS: returns the value of the
named field, `none` modelling the `KeyError` raised when the field does
not exist. -/
def QgsFeature.attr (f : QgsFeature) (name : String) : Option String :=
  (f.attrs.find? (fun p => p.1 == name)).map Prod.snd

/-- The host application snapping configuration, global mutable state of
QGIS that `activate` alters and `deactivate` must restore. -/
structure SnapConfig where
  enabled : Bool
  snapToNode : Bool
deriving DecidableEq, Repr

/-- Python exceptions that the handlers can raise. -/
inductive GwError where
  | attributeError
  | keyError
deriving DecidableEq, Repr

/-- Externally visible actions of the tool, recorded in order. -/
inductive Effect where
  | hideMarker
  | addMarker
  | setActiveLayer (l : Option Layer)
  | setCursor
  | showInfo (msg : String)
  | attributeRead (name : String)
  | buildBody (body : String)
  | remoteCall (fname : String) (body : String)
  | refreshCanvas
  | setActionPan
deriving DecidableEq, Repr

/-- The state of a flow button map tool together with the host state it
reads and mutates. -/
structure ToolState where
  current_layer : Option Layer
  layer_node : Option Layer
  canvasLayer : Option Layer
  snapped_feat : Option QgsFeature
  markerVisible : Bool
  actionChecked : Bool
  snappingConfig : SnapConfig
  storedSnapConfig : Option SnapConfig
  snappingLayersSet : Bool
  show_help : Bool
deriving DecidableEq, Repr

/-- The feature fragment built by `canvasReleaseEvent`, from the Python
f-string `f'"id":["{elem_id}"]'`. -/
def featureFragment (elem_id : String) : String :=
  "\"id\":[\"" ++ elem_id ++ "\"]"

/-- Modelled from the spec: `create_body` (giswater_tools, not under
src/) serializes the feature fragment into the JSON-shaped request body
of the form given in the external-interfaces section. -/
def create_body (feature : String) : String :=
  "\x7b" ++ feature ++ "\x7d"

/-- `GwFlowExitButton.canvasMoveEvent`: hides the marker, performs the
snap query (its outcome is the event input `snap`); on a valid result
adds the marker and stores the snapped feature.  On an invalid result
nothing else happens: in particular `snapped_feat` is left unchanged. -/
def exitCanvasMoveEvent (s : ToolState) (snap : Option QgsFeature) :
    ToolState × List Effect :=
  let s0 := { s with markerVisible := false }
  match snap with
  | some feat =>
      ({ s0 with markerVisible := true, snapped_feat := some feat },
       [Effect.hideMarker, Effect.addMarker])
  | none => (s0, [Effect.hideMarker])

/-- `GwFlowExitButton.canvasReleaseEvent`: on a left click with a
current layer set, reads `snapped_feat.attribute('node_id')` (raising if
`snapped_feat` is absent or lacks the field), builds the request body,
calls `gw_fct_flow_exit`; returns early on a falsy result, otherwise
refreshes the canvas and sets the pan action. -/
def exitCanvasReleaseEvent (s : ToolState) (button : MouseButton)
    (remoteResult : Option String) : Except GwError (ToolState × List Effect) :=
  if button = MouseButton.left ∧ s.current_layer.isSome then
    match s.snapped_feat with
    | none => Except.error GwError.attributeError
    | some feat =>
      match feat.attr "node_id" with
      | none => Except.error GwError.keyError
      | some elem_id =>
        let feature_id := featureFragment elem_id
        let body := create_body feature_id
        match remoteResult with
        | none =>
            Except.ok (s, [Effect.attributeRead "node_id",
              Effect.buildBody body,
              Effect.remoteCall "gw_fct_flow_exit" body])
        | some _ =>
            Except.ok (s, [Effect.attributeRead "node_id",
              Effect.buildBody body,
              Effect.remoteCall "gw_fct_flow_exit" body,
              Effect.refreshCanvas, Effect.setActionPan])
  else
    Except.ok (s, [])

/-- Help message shown by `GwFlowExitButton.activate`. -/
def exitHelpMessage : String :=
  "Select a node and click on it, the downstream nodes are computed"

/-- Help message shown by `GwFlowTraceButton.activate`. -/
def traceHelpMessage : String :=
  "Select a node and click on it, the upstream nodes are computed"

/-- `GwFlowExitButton.activate`: looks up the reference layer
`v_edit_node` (the lookup result is the input), makes it the active and
current layer, checks the button, sets the snapping layers, stores the
user snapping options, enables snapping, snaps to node, sets the cursor,
optionally shows the help message, and re-applies the active layer if
the canvas still has none. -/
def exitActivate (lookup : Option Layer) (s : ToolState) :
    ToolState × List Effect :=
  let s1 := { s with layer_node := lookup, canvasLayer := lookup,
                     current_layer := lookup }
  let s2 := { s1 with actionChecked := true }
  let s3 := { s2 with snappingLayersSet := true }
  let s4 := { s3 with storedSnapConfig := some s3.snappingConfig }
  let s5 := { s4 with snappingConfig := { s4.snappingConfig with enabled := true } }
  let s6 := { s5 with snappingConfig := { s5.snappingConfig with snapToNode := true } }
  let effs := [Effect.setActiveLayer lookup, Effect.setCursor] ++
    (if s.show_help then [Effect.showInfo exitHelpMessage] else [])
  if s6.canvasLayer = none then
    match lookup with
    | some l => ({ s6 with canvasLayer := some l },
                 effs ++ [Effect.setActiveLayer (some l)])
    | none => (s6, effs)
  else (s6, effs)

/-- Modelled from the spec: `GwParentMapTool.deactivate` (parent class,
not under src/) restores the previously stored snapping configuration,
unchecks the toolbar button and releases any marker graphics still
shown. -/
def parentDeactivate (s : ToolState) : ToolState :=
  { s with
    snappingConfig := s.storedSnapConfig.getD s.snappingConfig,
    actionChecked := false,
    markerVisible := false }

/-- `GwFlowExitButton.deactivate`: just calls the parent method. -/
def exitDeactivate (s : ToolState) : ToolState :=
  parentDeactivate s

/-- `GwFlowTraceButton.canvasMoveEvent` (identical body to the flow-exit
one, through the `qgis_tools` manager). -/
def traceCanvasMoveEvent (s : ToolState) (snap : Option QgsFeature) :
    ToolState × List Effect :=
  let s0 := { s with markerVisible := false }
  match snap with
  | some feat =>
      ({ s0 with markerVisible := true, snapped_feat := some feat },
       [Effect.hideMarker, Effect.addMarker])
  | none => (s0, [Effect.hideMarker])

/-- `GwFlowTraceButton.canvasReleaseEvent`: identical to the flow-exit
handler except that the named remote function is `gw_fct_flow_trace`. -/
def traceCanvasReleaseEvent (s : ToolState) (button : MouseButton)
    (remoteResult : Option String) : Except GwError (ToolState × List Effect) :=
  if button = MouseButton.left ∧ s.current_layer.isSome then
    match s.snapped_feat with
    | none => Except.error GwError.attributeError
    | some feat =>
      match feat.attr "node_id" with
      | none => Except.error GwError.keyError
      | some elem_id =>
        let feature_id := featureFragment elem_id
        let body := create_body feature_id
        match remoteResult with
        | none =>
            Except.ok (s, [Effect.attributeRead "node_id",
              Effect.buildBody body,
              Effect.remoteCall "gw_fct_flow_trace" body])
        | some _ =>
            Except.ok (s, [Effect.attributeRead "node_id",
              Effect.buildBody body,
              Effect.remoteCall "gw_fct_flow_trace" body,
              Effect.refreshCanvas, Effect.setActionPan])
  else
    Except.ok (s, [])

/-- `GwFlowTraceButton.activate`: identical to the flow-exit one except
for the help message text. -/
def traceActivate (lookup : Option Layer) (s : ToolState) :
    ToolState × List Effect :=
  let s1 := { s with layer_node := lookup, canvasLayer := lookup,
                     current_layer := lookup }
  let s2 := { s1 with actionChecked := true }
  let s3 := { s2 with snappingLayersSet := true }
  let s4 := { s3 with storedSnapConfig := some s3.snappingConfig }
  let s5 := { s4 with snappingConfig := { s4.snappingConfig with enabled := true } }
  let s6 := { s5 with snappingConfig := { s5.snappingConfig with snapToNode := true } }
  let effs := [Effect.setActiveLayer lookup, Effect.setCursor] ++
    (if s.show_help then [Effect.showInfo traceHelpMessage] else [])
  if s6.canvasLayer = none then
    match lookup with
    | some l => ({ s6 with canvasLayer := some l },
                 effs ++ [Effect.setActiveLayer (some l)])
    | none => (s6, effs)
  else (s6, effs)

/-- `GwFlowTraceButton.deactivate`: just calls the parent method. -/
def traceDeactivate (s : ToolState) : ToolState :=
  parentDeactivate s

/-- One event delivered to a flow button tool, together with the host
inputs that decide its outcome: the snap query result for a move, the
button and remote call result for a release, the layer lookup result
for an activation. -/
inductive Event where
  | move (snap : Option QgsFeature)
  | release (button : MouseButton) (remoteResult : Option String)
  | activateEv (lookup : Option Layer)
deriving DecidableEq, Repr

/-- Whether an event is a plain canvas event (move or release), and not
an activation of the tool. -/
def Event.isCanvasEvent : Event → Bool
  | Event.move _ => true
  | Event.release _ _ => true
  | Event.activateEv _ => false

/-- One step of the flow-exit button. -/
def exitStep (s : ToolState) : Event → Except GwError (ToolState × List Effect)
  | Event.move snap => Except.ok (exitCanvasMoveEvent s snap)
  | Event.release b r => exitCanvasReleaseEvent s b r
  | Event.activateEv lk => Except.ok (exitActivate lk s)

/-- One step of the flow-trace button. -/
def traceStep (s : ToolState) : Event → Except GwError (ToolState × List Effect)
  | Event.move snap => Except.ok (traceCanvasMoveEvent s snap)
  | Event.release b r => traceCanvasReleaseEvent s b r
  | Event.activateEv lk => Except.ok (traceActivate lk s)

/-- Run the flow-exit button over a sequence of events, accumulating the
effect trace; an uncaught exception aborts the run. -/
def exitRun (s : ToolState) : List Event → Except GwError (ToolState × List Effect)
  | [] => Except.ok (s, [])
  | e :: es =>
    match exitStep s e with
    | Except.error err => Except.error err
    | Except.ok (s1, effs) =>
      match exitRun s1 es with
      | Except.error err => Except.error err
      | Except.ok (s2, effs2) => Except.ok (s2, effs ++ effs2)

/-- Run the flow-trace button over a sequence of events. -/
def traceRun (s : ToolState) : List Event → Except GwError (ToolState × List Effect)
  | [] => Except.ok (s, [])
  | e :: es =>
    match traceStep s e with
    | Except.error err => Except.error err
    | Except.ok (s1, effs) =>
      match traceRun s1 es with
      | Except.error err => Except.error err
      | Except.ok (s2, effs2) => Except.ok (s2, effs ++ effs2)

/-- The only differences the flow-trace button is allowed to show with
respect to the flow-exit button: the remote function name and the
one-time help message text.  Every other effect is mapped to itself. -/
def traceOfExitEffect : Effect → Effect
  | Effect.remoteCall fname body =>
      Effect.remoteCall
        (if fname = "gw_fct_flow_exit" then "gw_fct_flow_trace" else fname) body
  | Effect.showInfo msg =>
      Effect.showInfo (if msg = exitHelpMessage then traceHelpMessage else msg)
  | e => e

/-- Rename a whole flow-exit outcome into the corresponding flow-trace
outcome: the state and the error are kept, the effects are renamed. -/
def traceOfExitResult (r : Except GwError (ToolState × List Effect)) :
    Except GwError (ToolState × List Effect) :=
  match r with
  | Except.error err => Except.error err
  | Except.ok (s, effs) => Except.ok (s, effs.map traceOfExitEffect)

/-- Effects that the release guard is supposed to prevent: reading an
attribute of the snapped feature, building a request body, making the
remote call, refreshing the canvas. -/
def releaseSideEffect : Effect → Bool
  | Effect.attributeRead _ => true
  | Effect.buildBody _ => true
  | Effect.remoteCall _ _ => true
  | Effect.refreshCanvas => true
  | _ => false

/-- A snapping configuration used in concrete test states. -/
def defaultConfig : SnapConfig :=
  { enabled := false, snapToNode := false }

/-- A node feature whose `node_id` attribute is `N123`. -/
def featN123 : QgsFeature :=
  { attrs := [("node_id", "N123")] }

/-- A node feature whose `node_id` attribute is `N001`. -/
def featN001 : QgsFeature :=
  { attrs := [("node_id", "N001")] }

/-- A concrete tool state with a current layer set and no snapped
feature stored. -/
def noSnapState : ToolState :=
  { current_layer := some "v_edit_node", layer_node := some "v_edit_node",
    canvasLayer := some "v_edit_node", snapped_feat := none,
    markerVisible := false, actionChecked := true,
    snappingConfig := defaultConfig, storedSnapConfig := none,
    snappingLayersSet := true, show_help := false }

/-- A concrete tool state holding a previously snapped feature. -/
def staleSnapState : ToolState :=
  { noSnapState with snapped_feat := some featN001 }

/-- Claim C1, counterexample: a left release with a current layer set
but no valid snapped feature stored is not a silent no-op — the
unguarded read of `snapped_feat.attribute('node_id')` raises an
attribute error that propagates out of `canvasReleaseEvent`. -/
theorem c1_counterexample :
    noSnapState.current_layer.isSome = true ∧
    noSnapState.snapped_feat = none ∧
    exitCanvasReleaseEvent noSnapState MouseButton.left none =
      Except.error GwError.attributeError := by
  refine ⟨rfl, rfl, rfl⟩

/-- Claim C1, amended: on a left release with a current layer set and no
valid snapped feature stored, `canvasReleaseEvent` builds no request
body, makes no remote call and performs no canvas mutation, but it is
not silent: it raises an attribute error. -/
theorem c1_release_without_snap_raises (s : ToolState) (r : Option String)
    (hl : s.current_layer.isSome) (hs : s.snapped_feat = none) :
    exitCanvasReleaseEvent s MouseButton.left r =
      Except.error GwError.attributeError := by
  unfold exitCanvasReleaseEvent
  rw [if_pos ⟨rfl, hl⟩, hs]

/-- Claim C1, witness for the amended theorem at a concrete state. -/
theorem c1_release_without_snap_raises_witness :
    noSnapState.current_layer.isSome = true ∧ noSnapState.snapped_feat = none ∧
    exitCanvasReleaseEvent noSnapState MouseButton.left none =
      Except.error GwError.attributeError :=
  ⟨rfl, rfl, c1_release_without_snap_raises noSnapState none rfl rfl⟩

/-- Claim C2, counterexample: after a move event whose snap query is
invalid, the previously stored snapped feature is NOT cleared, and a
later left release does use the stale feature: it calls the remote
function with the stale identifier `N001`. -/
theorem c2_counterexample :
    (exitCanvasMoveEvent staleSnapState none).1.snapped_feat = some featN001 ∧
    exitCanvasReleaseEvent (exitCanvasMoveEvent staleSnapState none).1
        MouseButton.left (some "done") =
      Except.ok ((exitCanvasMoveEvent staleSnapState none).1,
        [Effect.attributeRead "node_id",
         Effect.buildBody (create_body (featureFragment "N001")),
         Effect.remoteCall "gw_fct_flow_exit" (create_body (featureFragment "N001")),
         Effect.refreshCanvas, Effect.setActionPan]) := by
  refine ⟨rfl, rfl⟩

/-- Claim C2, amended: on a move event whose snap query is invalid, both
buttons hide the marker and show no new one, and leave the stored
snapped-feature reference unchanged (it is retained, not cleared), the
only effect being the marker hide. -/
theorem c2_move_invalid_snap_keeps_feature (s : ToolState) :
    (exitCanvasMoveEvent s none).1.markerVisible = false ∧
    (exitCanvasMoveEvent s none).1.snapped_feat = s.snapped_feat ∧
    (exitCanvasMoveEvent s none).2 = [Effect.hideMarker] ∧
    (traceCanvasMoveEvent s none).1.markerVisible = false ∧
    (traceCanvasMoveEvent s none).1.snapped_feat = s.snapped_feat ∧
    (traceCanvasMoveEvent s none).2 = [Effect.hideMarker] :=
  ⟨rfl, rfl, rfl, rfl, rfl, rfl⟩

/-- Claim C5: a release whose button is not the left one, or issued
while no current layer is set, skips the whole handler body: the state
is unchanged and no effect at all is produced. -/
theorem c5_guard_skips_handler (s : ToolState) (b : MouseButton)
    (r : Option String) (h : b ≠ MouseButton.left ∨ s.current_layer = none) :
    exitCanvasReleaseEvent s b r = Except.ok (s, []) := by
  unfold exitCanvasReleaseEvent
  rw [if_neg]
  rintro ⟨hb, hl⟩
  rcases h with h | h
  · exact h hb
  · rw [h] at hl
    exact Bool.false_ne_true hl

/-- Claim C5, witness: a right-button release at a concrete state is a
no-op. -/
theorem c5_guard_skips_handler_witness :
    (MouseButton.right ≠ MouseButton.left ∨ staleSnapState.current_layer = none) ∧
    exitCanvasReleaseEvent staleSnapState MouseButton.right none =
      Except.ok (staleSnapState, []) :=
  ⟨Or.inl (by decide),
   c5_guard_skips_handler staleSnapState MouseButton.right none (Or.inl (by decide))⟩

/-- Claim C3: on a valid left release, a falsy remote result makes
`canvasReleaseEvent` return right after the call — the effect trace ends
at the remote call, with no canvas refresh and no switch to the pan
tool — while a truthy result appends the canvas refresh and the switch
to the pan tool. -/
theorem c3_falsy_result_skips_refresh (s : ToolState) (feat : QgsFeature)
    (elem_id : String) (hl : s.current_layer.isSome)
    (hs : s.snapped_feat = some feat)
    (ha : feat.attr "node_id" = some elem_id) :
    (exitCanvasReleaseEvent s MouseButton.left none =
       Except.ok (s, [Effect.attributeRead "node_id",
         Effect.buildBody (create_body (featureFragment elem_id)),
         Effect.remoteCall "gw_fct_flow_exit" (create_body (featureFragment elem_id))])) ∧
    (∀ r : String, exitCanvasReleaseEvent s MouseButton.left (some r) =
       Except.ok (s, [Effect.attributeRead "node_id",
         Effect.buildBody (create_body (featureFragment elem_id)),
         Effect.remoteCall "gw_fct_flow_exit" (create_body (featureFragment elem_id)),
         Effect.refreshCanvas, Effect.setActionPan])) := by
  constructor
  · unfold exitCanvasReleaseEvent
    rw [if_pos ⟨rfl, hl⟩, hs]
    simp [ha]
  · intro r
    unfold exitCanvasReleaseEvent
    rw [if_pos ⟨rfl, hl⟩, hs]
    simp [ha]

/-- Claim C3, witness at a concrete state holding a snapped feature. -/
theorem c3_falsy_result_skips_refresh_witness :
    staleSnapState.current_layer.isSome = true ∧
    staleSnapState.snapped_feat = some featN001 ∧
    featN001.attr "node_id" = some "N001" ∧
    (exitCanvasReleaseEvent staleSnapState MouseButton.left none =
       Except.ok (staleSnapState, [Effect.attributeRead "node_id",
         Effect.buildBody (create_body (featureFragment "N001")),
         Effect.remoteCall "gw_fct_flow_exit" (create_body (featureFragment "N001"))])) ∧
    (∀ r : String, exitCanvasReleaseEvent staleSnapState MouseButton.left (some r) =
       Except.ok (staleSnapState, [Effect.attributeRead "node_id",
         Effect.buildBody (create_body (featureFragment "N001")),
         Effect.remoteCall "gw_fct_flow_exit" (create_body (featureFragment "N001")),
         Effect.refreshCanvas, Effect.setActionPan])) :=
  ⟨rfl, rfl, rfl,
   (c3_falsy_result_skips_refresh staleSnapState featN001 "N001" rfl rfl rfl).1,
   (c3_falsy_result_skips_refresh staleSnapState featN001 "N001" rfl rfl rfl).2⟩

/-- Claim C4: when the snapped feature has `node_id` equal to `N123`,
the feature fragment passed to `create_body` is exactly
`"id":["N123"]`, and the remote call is made with the body built from
that fragment. -/
theorem c4_body_for_N123 (s : ToolState) (feat : QgsFeature) (r : Option String)
    (hl : s.current_layer.isSome) (hs : s.snapped_feat = some feat)
    (ha : feat.attr "node_id" = some "N123") :
    featureFragment "N123" = "\"id\":[\"N123\"]" ∧
    ∃ tail, exitCanvasReleaseEvent s MouseButton.left r =
      Except.ok (s, [Effect.attributeRead "node_id",
        Effect.buildBody (create_body "\"id\":[\"N123\"]"),
        Effect.remoteCall "gw_fct_flow_exit" (create_body "\"id\":[\"N123\"]")] ++ tail) := by
  have hf : featureFragment "N123" = "\"id\":[\"N123\"]" := by decide
  refine ⟨hf, ?_⟩
  unfold exitCanvasReleaseEvent
  rw [if_pos ⟨rfl, hl⟩, hs]
  simp only [ha]
  cases r with
  | none => exact ⟨[], by simp [hf]⟩
  | some v => exact ⟨[Effect.refreshCanvas, Effect.setActionPan], by simp [hf]⟩

/-- Claim C4, witness at a concrete state snapped to the feature with
identifier `N123`. -/
theorem c4_body_for_N123_witness :
    ({ noSnapState with snapped_feat := some featN123 } :
        ToolState).current_layer.isSome = true ∧
    featN123.attr "node_id" = some "N123" ∧
    (featureFragment "N123" = "\"id\":[\"N123\"]" ∧
     ∃ tail, exitCanvasReleaseEvent
         { noSnapState with snapped_feat := some featN123 } MouseButton.left none =
       Except.ok ({ noSnapState with snapped_feat := some featN123 },
         [Effect.attributeRead "node_id",
          Effect.buildBody (create_body "\"id\":[\"N123\"]"),
          Effect.remoteCall "gw_fct_flow_exit" (create_body "\"id\":[\"N123\"]")] ++ tail)) :=
  ⟨rfl, rfl,
   c4_body_for_N123 { noSnapState with snapped_feat := some featN123 }
     featN123 none rfl rfl rfl⟩

/-- Claim C6: on a successful interaction (left release, current layer
set, valid snapped feature, truthy remote result) the effects happen in
exactly this order: the request body is built, the named remote function
is invoked, the canvas is refreshed, and the pan action is set. -/
theorem c6_success_effect_order (s : ToolState) (feat : QgsFeature)
    (elem_id : String) (r : String) (hl : s.current_layer.isSome)
    (hs : s.snapped_feat = some feat)
    (ha : feat.attr "node_id" = some elem_id) :
    exitCanvasReleaseEvent s MouseButton.left (some r) =
      Except.ok (s, [Effect.attributeRead "node_id",
        Effect.buildBody (create_body (featureFragment elem_id)),
        Effect.remoteCall "gw_fct_flow_exit" (create_body (featureFragment elem_id)),
        Effect.refreshCanvas, Effect.setActionPan]) := by
  unfold exitCanvasReleaseEvent
  rw [if_pos ⟨rfl, hl⟩, hs]
  simp [ha]

/-- Claim C6, witness at a concrete state. -/
theorem c6_success_effect_order_witness :
    staleSnapState.current_layer.isSome = true ∧
    staleSnapState.snapped_feat = some featN001 ∧
    featN001.attr "node_id" = some "N001" ∧
    exitCanvasReleaseEvent staleSnapState MouseButton.left (some "changed") =
      Except.ok (staleSnapState, [Effect.attributeRead "node_id",
        Effect.buildBody (create_body (featureFragment "N001")),
        Effect.remoteCall "gw_fct_flow_exit" (create_body (featureFragment "N001")),
        Effect.refreshCanvas, Effect.setActionPan]) :=
  ⟨rfl, rfl, rfl,
   c6_success_effect_order staleSnapState featN001 "N001" "changed" rfl rfl rfl⟩

/-- Claim C7: `activate()` stores the snapping configuration before
altering it, and `deactivate()` restores the stored one, so the pair
composes to the identity on the host snapping configuration, whatever
the starting configuration and the layer lookup result. -/
theorem c7_activate_deactivate_restores (s : ToolState) (lookup : Option Layer) :
    (exitDeactivate (exitActivate lookup s).1).snappingConfig = s.snappingConfig := by
  unfold exitActivate exitDeactivate parentDeactivate
  cases lookup <;> simp

/-- Claim C8: `deactivate()` is idempotent for both buttons: a second
call leaves the state produced by the first call unchanged. -/
theorem c8_deactivate_idempotent (s : ToolState) :
    exitDeactivate (exitDeactivate s) = exitDeactivate s ∧
    traceDeactivate (traceDeactivate s) = traceDeactivate s := by
  constructor
  · cases h : s.storedSnapConfig <;> simp [exitDeactivate, parentDeactivate, h]
  · cases h : s.storedSnapConfig <;> simp [traceDeactivate, parentDeactivate, h]

/-- Helper for claim C9: a single flow-trace step is the corresponding
flow-exit step with the function name and the help message renamed. -/
theorem traceStep_eq_renamed_exitStep (s : ToolState) (e : Event) :
    traceStep s e = traceOfExitResult (exitStep s e) := by
  cases e with
  | move snap =>
    cases snap <;>
      simp [traceStep, exitStep, traceCanvasMoveEvent, exitCanvasMoveEvent,
        traceOfExitResult, traceOfExitEffect]
  | release b r =>
    simp only [traceStep, exitStep]
    unfold traceCanvasReleaseEvent exitCanvasReleaseEvent
    by_cases h : b = MouseButton.left ∧ s.current_layer.isSome
    · rw [if_pos h, if_pos h]
      cases hs : s.snapped_feat with
      | none => simp [traceOfExitResult, hs]
      | some feat =>
        cases ha : feat.attr "node_id" with
        | none => simp [traceOfExitResult, hs, ha]
        | some elem_id =>
          cases r <;> simp [traceOfExitResult, traceOfExitEffect, hs, ha]
    · rw [if_neg h, if_neg h]
      simp [traceOfExitResult]
  | activateEv lk =>
    simp only [traceStep, exitStep]
    unfold traceActivate exitActivate
    cases lk <;> cases hh : s.show_help <;>
      simp [traceOfExitResult, traceOfExitEffect, hh, exitHelpMessage,
        traceHelpMessage]

/-- Claim C9: the flow-exit and flow-trace buttons are behaviorally
equivalent: over every starting state and every sequence of
move/release/activate events they reach the same states and raise the
same errors, and their effect traces agree up to renaming the remote
function `gw_fct_flow_exit` to `gw_fct_flow_trace` and the downstream
help text to the upstream one. -/
theorem c9_trace_equals_renamed_exit (s : ToolState) (evs : List Event) :
    traceRun s evs = traceOfExitResult (exitRun s evs) := by
  induction evs generalizing s with
  | nil => simp [traceRun, exitRun, traceOfExitResult]
  | cons e es ih =>
    simp only [traceRun, exitRun]
    rw [traceStep_eq_renamed_exitStep]
    cases h : exitStep s e with
    | error err => simp [traceOfExitResult]
    | ok p =>
      obtain ⟨s1, effs⟩ := p
      simp only [traceOfExitResult]
      rw [ih s1]
      cases h2 : exitRun s1 es with
      | error err => simp [traceOfExitResult]
      | ok q =>
        obtain ⟨s2, effs2⟩ := q
        simp [traceOfExitResult]

/-- Helper: a release while no current layer is set is a no-op. -/
theorem exitRelease_no_layer (s : ToolState) (b : MouseButton)
    (r : Option String) (hl : s.current_layer = none) :
    exitCanvasReleaseEvent s b r = Except.ok (s, []) := by
  unfold exitCanvasReleaseEvent
  rw [if_neg]
  rintro ⟨hb, hsome⟩
  rw [hl] at hsome
  exact Bool.false_ne_true hsome

/-- Helper for claim C10: while no current layer is set, every sequence
of plain canvas events (moves and releases) runs without error, keeps
the current layer unset, and produces no attribute read, body build,
remote call or canvas refresh. -/
theorem exitRun_no_layer_benign (evs : List Event) :
    ∀ s : ToolState, s.current_layer = none →
    (∀ e ∈ evs, e.isCanvasEvent = true) →
    ∃ p, exitRun s evs = Except.ok p ∧ p.1.current_layer = none ∧
      ∀ eff ∈ p.2, releaseSideEffect eff = false := by
  induction evs with
  | nil =>
    intro s hl _
    exact ⟨(s, []), rfl, hl, by intro eff h; cases h⟩
  | cons e es ih =>
    intro s hl hc
    have hce : e.isCanvasEvent = true := hc e (List.mem_cons_self e es)
    have hces : ∀ x ∈ es, x.isCanvasEvent = true :=
      fun x hx => hc x (List.mem_cons_of_mem e hx)
    cases e with
    | move snap =>
      have hstep : exitStep s (Event.move snap) =
          Except.ok (exitCanvasMoveEvent s snap) := rfl
      have hl1 : (exitCanvasMoveEvent s snap).1.current_layer = none := by
        cases snap <;> simpa [exitCanvasMoveEvent] using hl
      obtain ⟨p, hp, hp1, hp2⟩ := ih (exitCanvasMoveEvent s snap).1 hl1 hces
      refine ⟨(p.1, (exitCanvasMoveEvent s snap).2 ++ p.2), ?_, hp1, ?_⟩
      · simp only [exitRun, hstep, hp]
      · intro eff he
        rcases List.mem_append.mp he with he | he
        · cases snap <;> simp [exitCanvasMoveEvent] at he <;>
            rcases he with he | he <;> simp [he, releaseSideEffect]
        · exact hp2 eff he
    | release b r =>
      have hstep : exitStep s (Event.release b r) = Except.ok (s, []) := by
        simp only [exitStep]
        exact exitRelease_no_layer s b r hl
      obtain ⟨p, hp, hp1, hp2⟩ := ih s hl hces
      refine ⟨(p.1, [] ++ p.2), ?_, hp1, ?_⟩
      · simp only [exitRun, hstep, hp]
      · intro eff he
        exact hp2 eff (by simpa using he)
    | activateEv lk =>
      exact absurd hce (by simp [Event.isCanvasEvent])

/-- Claim C10: if the lookup of the reference layer `v_edit_node`
returns none during `activate()`, the current layer is unset afterwards,
and every subsequent sequence of canvas events (moves and releases, left
clicks included) runs without error and performs no attribute read, no
request-body construction, no remote call, and no canvas refresh. -/
theorem c10_missing_layer_releases_noop (s : ToolState) (evs : List Event)
    (hc : ∀ e ∈ evs, e.isCanvasEvent = true) :
    (exitActivate none s).1.current_layer = none ∧
    ∃ p, exitRun (exitActivate none s).1 evs = Except.ok p ∧
      ∀ eff ∈ p.2, releaseSideEffect eff = false := by
  have hl : (exitActivate none s).1.current_layer = none := by
    simp [exitActivate]
  obtain ⟨p, hp, _, hp2⟩ := exitRun_no_layer_benign evs (exitActivate none s).1 hl hc
  exact ⟨hl, p, hp, hp2⟩

/-- Claim C10, witness: after an activation with a failed layer lookup,
a valid-looking move followed by a left-click release stays free of
release side effects. -/
theorem c10_missing_layer_releases_noop_witness :
    (∀ e ∈ [Event.move (some featN123), Event.release MouseButton.left (some "res")],
       e.isCanvasEvent = true) ∧
    ((exitActivate none noSnapState).1.current_layer = none ∧
     ∃ p, exitRun (exitActivate none noSnapState).1
         [Event.move (some featN123), Event.release MouseButton.left (some "res")] =
           Except.ok p ∧
       ∀ eff ∈ p.2, releaseSideEffect eff = false) :=
  ⟨by decide,
   c10_missing_layer_releases_noop noSnapState
     [Event.move (some featN123), Event.release MouseButton.left (some "res")]
     (by decide)⟩

end Giswater
